import Mathlib

/-!
Shallow embedding of the PJRT C-API client adapter
(`xla/pjrt/pjrt_c_api_client.cc`).  The plugin behind the C API is modelled
as explicit oracle arguments (the value a plugin call would return); the
adapter's own control flow — dispatch, validation, error construction,
storage pre-sizing — is translated from the source.  A result that is the
same for every oracle shows the corresponding plugin entry point is never
consulted; where convenient a Boolean flag records whether the plugin call
was reached.
-/

deriving instance DecidableEq for Except

namespace PjrtC

/-- Error codes distinguished by the adapter (`PJRT_Error_Code` /
`absl::StatusCode`).  `fatalCheck` stands for a failed `CHECK` /
`LogFatalIfPjrtError`, i.e. process termination. -/
inductive ErrorCode
  | unimplemented
  | invalidArgument
  | internal
  | fatalCheck
  | other
deriving DecidableEq, Repr

/-- A plugin/adapter error: a code plus a message, as produced by
`Unimplemented(...)`, `InvalidArgument(...)` and friends. -/
structure PjrtError where
  code : ErrorCode
  message : String
deriving DecidableEq, Repr

/-- A client (`PjRtCApiClient`): identity plus its platform name.  Pointer
equality of clients in the C++ is modelled by equality of `id`. -/
structure PjRtCApiClient where
  id : Nat
  platform_name : String
deriving DecidableEq, Repr

/-- A device buffer (`PjRtCApiBuffer`): its owning client and its device
contents, identified with the bytes a host materialization would yield. -/
structure PjRtCApiBuffer where
  client : PjRtCApiClient
  contents : List Nat
deriving DecidableEq, Repr

/-- A device (`PjRtCApiDevice`), reduced to its owning client. -/
structure PjRtDevice where
  client : PjRtCApiClient
deriving DecidableEq, Repr

/-- A memory space (`PjRtCApiMemorySpace`), reduced to its owning client. -/
structure PjRtMemorySpace where
  client : PjRtCApiClient
deriving DecidableEq, Repr

/-! ### UnsafeBufferPointer (claim C4) -/

/-- The `InvalidArgument` message built at
`PjRtCApiClient::UnsafeBufferPointer`, naming the buffer's client platform
and the calling client's platform. -/
def unsafeBufferPointerMessage (bufferPlatform callPlatform : String) : String :=
  "buffer passed to PjRtCApiClient::UnsafeBufferPointer() is from a different client than that of the function call. Buffer client platform: " ++ bufferPlatform ++ ", function call client platform: " ++ callPlatform ++ "."

/-- `PjRtCApiClient::UnsafeBufferPointer`.  `pluginPointer` is the value the
plugin call `PJRT_Buffer_UnsafePointer` would produce; the Boolean in the
result records whether that plugin call was made. -/
def UnsafeBufferPointer (self : PjRtCApiClient) (buffer : PjRtCApiBuffer)
    (pluginPointer : Except PjrtError Nat) : Except PjrtError Nat × Bool :=
  if buffer.client ≠ self then
    (.error ⟨.invalidArgument,
      unsafeBufferPointerMessage buffer.client.platform_name self.platform_name⟩,
     false)
  else
    (pluginPointer, true)

/-! ### BufferFromHostBuffer (claims C3 and C1) -/

/-- Modelled from the spec: the `HostBufferSemantics` enumeration is declared
in a header that is not part of this repository snapshot.  The spec lists the
three supported values and speaks of "any other requested semantics", so the
model carries one further value standing for every other member of the
enumeration. -/
inductive HostBufferSemantics
  | kImmutableOnlyDuringCall
  | kImmutableUntilTransferCompletes
  | kZeroCopy
  | kOtherSemantics
deriving DecidableEq, Repr

/-- The `Unimplemented` error returned by
`PjRtCApiClient::BufferFromHostBufferInternalImpl` for unsupported host
buffer semantics. -/
def unimplementedSemanticsError : PjrtError :=
  ⟨.unimplemented,
   "PJRT C API does not support HostBufferSemantics other than kImmutableOnlyDuringCall, kZeroCopy and kImmutableUntilTransferCompletes."⟩

/-- `PjRtCApiClient::BufferFromHostBufferInternalImpl`: rejects unsupported
semantics before any plugin call, otherwise ingests `data` on `dstClient`
through `PJRT_Client_BufferFromHostBuffer` (plugin contract: the new buffer
lives on the destination client and holds the supplied host bytes).  The
Boolean records whether the plugin call was made. -/
def BufferFromHostBufferInternalImpl (sem : HostBufferSemantics)
    (dstClient : PjRtCApiClient) (data : List Nat) :
    Except PjrtError PjRtCApiBuffer × Bool :=
  if sem ≠ .kImmutableOnlyDuringCall ∧ sem ≠ .kZeroCopy ∧
      sem ≠ .kImmutableUntilTransferCompletes then
    (.error unimplementedSemanticsError, false)
  else
    (.ok ⟨dstClient, data⟩, true)

/-! ### CopyToDevice / CopyToMemorySpace (claim C1) -/

/-- A host literal, as produced by `PjRtBuffer::ToLiteralSync`. -/
structure Literal where
  bytes : List Nat
deriving DecidableEq, Repr

/-- `ToLiteralSync`: materializes the buffer's device contents on the host. -/
def ToLiteralSync (b : PjRtCApiBuffer) : Literal :=
  ⟨b.contents⟩

/-- Plugin contract for `PJRT_Buffer_CopyToDevice`: a new buffer on the
destination device's client with the same contents. -/
def pluginCopyToDevice (src : PjRtCApiBuffer) (dst : PjRtDevice) : PjRtCApiBuffer :=
  ⟨dst.client, src.contents⟩

/-- Plugin contract for `PJRT_Buffer_CopyToMemory`: a new buffer on the
destination memory space's client with the same contents. -/
def pluginCopyToMemory (src : PjRtCApiBuffer) (dst : PjRtMemorySpace) : PjRtCApiBuffer :=
  ⟨dst.client, src.contents⟩

/-- The reified call to `BufferFromHostBuffer` made on the cross-client copy
path: destination client, the host bytes handed over, the requested
semantics, and whether the `on_done_with_host_buffer` callback frees the
intermediate host literal (the C++ lambda captures the `shared_ptr` by move,
so running it releases the literal). -/
structure HostIngestCall where
  dstClient : PjRtCApiClient
  hostData : List Nat
  semantics : HostBufferSemantics
  onDoneFreesHostLiteral : Bool
deriving DecidableEq, Repr

/-- Which mechanism a copy call used: the direct plugin device-to-device
copy, or the host round trip through `BufferFromHostBuffer`. -/
inductive CopyToDeviceCall
  | directDeviceCopy (result : PjRtCApiBuffer)
  | hostRoundTrip (ingest : HostIngestCall)
deriving DecidableEq, Repr

/-- `PjRtCApiBuffer::CopyToDevice`: same-client destinations use
`PJRT_Buffer_CopyToDevice`; otherwise the buffer is synchronously
materialized with `ToLiteralSync` and re-ingested on the destination client
via `BufferFromHostBuffer` with zero-copy semantics and a completion
callback that frees the literal. -/
def CopyToDevice (src : PjRtCApiBuffer) (dst : PjRtDevice) : CopyToDeviceCall :=
  if dst.client = src.client then
    .directDeviceCopy (pluginCopyToDevice src dst)
  else
    .hostRoundTrip ⟨dst.client, (ToLiteralSync src).bytes, .kZeroCopy, true⟩

/-- The `Unimplemented` error returned by `CopyToMemorySpace` on plugins
older than API minor version 32. -/
def copyToMemorySpaceUnimplementedError : PjrtError :=
  ⟨.unimplemented,
   "The plugin has PJRT API version 0.32 which does not support CopyToMemorySpace"⟩

/-- `PjRtCApiBuffer::CopyToMemorySpace`: plugins with API minor version below
32 get `Unimplemented` before anything else; then the same same-client /
cross-client dispatch as `CopyToDevice`. -/
def CopyToMemorySpace (minorVersion : Nat) (src : PjRtCApiBuffer)
    (dst : PjRtMemorySpace) : Except PjrtError CopyToDeviceCall :=
  if minorVersion < 32 then
    .error copyToMemorySpaceUnimplementedError
  else if dst.client = src.client then
    .ok (.directDeviceCopy (pluginCopyToMemory src dst))
  else
    .ok (.hostRoundTrip ⟨dst.client, (ToLiteralSync src).bytes, .kZeroCopy, true⟩)

/-- The buffer a copy call finally produces: a host round trip feeds the
recorded call through `BufferFromHostBufferInternalImpl`. -/
def copyCallResult : CopyToDeviceCall → Except PjrtError PjRtCApiBuffer
  | .directDeviceCopy b => .ok b
  | .hostRoundTrip c =>
      (BufferFromHostBufferInternalImpl c.semantics c.dstClient c.hostData).1

/-! ### CreateViewOfDeviceBuffer (claim C10) -/

/-- The `Unimplemented` error returned by `CreateViewOfDeviceBuffer` on
plugins older than API minor version 33. -/
def createViewUnimplementedError : PjrtError :=
  ⟨.unimplemented, "The plugin does not support CreateViewOfDeviceBuffer"⟩

/-- `PjRtCApiClient::CreateViewOfDeviceBuffer`: plugins with API minor
version below 33 get `Unimplemented` before the plugin entry point
`PJRT_Client_CreateViewOfDeviceBuffer` is invoked; `pluginView` is what that
entry point would produce, and the Boolean records whether it was invoked. -/
def CreateViewOfDeviceBuffer (minorVersion : Nat) (client : PjRtCApiClient)
    (pluginView : Except PjrtError (List Nat)) :
    Except PjrtError PjRtCApiBuffer × Bool :=
  if minorVersion < 33 then
    (.error createViewUnimplementedError, false)
  else
    match pluginView with
    | .error e => (.error e, true)
    | .ok contents => (.ok ⟨client, contents⟩, true)

/-! ### GetReadyFuture (claim C2) -/

/-- A `PjRtFuture<Status>::Promise`, reduced to an identity so that "backed
by the same promise" is equality. -/
structure Promise where
  id : Nat
deriving DecidableEq, Repr

/-- A `PjRtFuture<Status>`: the promise backing it. -/
structure PjRtFuture where
  promise : Promise
deriving DecidableEq, Repr

/-- The readiness state of a `PjRtCApiBuffer`: the cached
`readiness_promise_`, how many completion callbacks are currently registered
on the buffer's ready event, and how many times the promise has been
resolved (`Promise::Set`). -/
structure BufferReadyState where
  readinessPromise : Option Promise
  eventCallbacks : Nat
  promiseSets : Nat
deriving DecidableEq, Repr

/-- A freshly constructed buffer: no cached promise, no callbacks, promise
never set. -/
def initialReadyState : BufferReadyState :=
  ⟨none, 0, 0⟩

/-- `PjRtCApiBuffer::MakePromiseTrackEvent`: calls `PJRT_Event_OnReady` once.
`onReadyError` is the outcome of that plugin call: on success one completion
callback (which will resolve the cached promise) is registered on the ready
event; on failure the promise is resolved immediately with the error. -/
def MakePromiseTrackEvent (onReadyError : Option PjrtError)
    (s : BufferReadyState) : BufferReadyState :=
  match onReadyError with
  | none => { s with eventCallbacks := s.eventCallbacks + 1 }
  | some _ => { s with promiseSets := s.promiseSets + 1 }

/-- `PjRtCApiBuffer::GetReadyFuture`: on the first call creates a promise,
caches it, and runs `MakePromiseTrackEvent`; every later call returns a
future over the cached promise without touching the event. -/
def GetReadyFuture (onReadyError : Option PjrtError) (s : BufferReadyState) :
    BufferReadyState × PjRtFuture :=
  match s.readinessPromise with
  | none =>
      let p : Promise := ⟨0⟩
      (MakePromiseTrackEvent onReadyError { s with readinessPromise := some p }, ⟨p⟩)
  | some p => (s, ⟨p⟩)

/-- The ready event fires (once): every registered callback runs exactly
once, each resolving the promise, and is then freed. -/
def fireReadyEvent (s : BufferReadyState) : BufferReadyState :=
  { s with eventCallbacks := 0, promiseSets := s.promiseSets + s.eventCallbacks }

/-- `n` successive calls to `GetReadyFuture` on the same buffer, collecting
the returned futures. -/
def getReadyFutureN (onReadyError : Option PjrtError) :
    Nat → BufferReadyState → BufferReadyState × List PjRtFuture
  | 0, s => (s, [])
  | n + 1, s =>
      let r1 := GetReadyFuture onReadyError s
      let r2 := getReadyFutureN onReadyError n r1.1
      (r2.1, r1.2 :: r2.2)

/-! ### Execute paths (claims C5, C7, C9) -/

/-- `xla::ExecuteOptions`, reduced to the fields the C-API adapter reads.
Send/recv callbacks are opaque identifiers grouped per device. -/
structure ExecuteOptions where
  launch_id : Int
  send_callbacks : List (List Nat)
  recv_callbacks : List (List Nat)
  use_major_to_minor_data_layout_for_callbacks : Bool
deriving DecidableEq, Repr

/-- The `Unimplemented` error from `GetCommonExecuteArgs` for host callbacks
with a non-host-major data layout. -/
def layoutUnimplementedError : PjrtError :=
  ⟨.unimplemented,
   "PJRT C API does not support ExecuteOptions with use_major_to_minor_data_layout_for_callbacks equal to false"⟩

/-- A failed `CHECK_GT(args.num_devices, 0)`, i.e. process termination. -/
def checkFailedError : PjrtError :=
  ⟨.fatalCheck, "CHECK failed: args.num_devices is greater than 0"⟩

/-- The relevant pieces of `PJRT_LoadedExecutable_Execute_Args` assembled by
`GetCommonExecuteArgs`: device count, argument arity, and the pre-sized
output storage the plugin will write into (one opaque slot per output). -/
structure ExecuteArgs where
  num_devices : Nat
  num_args : Nat
  output_lists_storage : List (List Nat)
deriving DecidableEq, Repr

/-- `PjRtCApiLoadedExecutable::GetCommonExecuteArgs`: rejects host callbacks
with a non-host-major layout, checks the device count, queries the
executable's declared number of outputs (`numOutputsQuery` is what
`PJRT_Executable_NumOutputs` would return), and pre-sizes the output storage
to one list per device, each with one slot per declared output. -/
def GetCommonExecuteArgs (argument_handles : List (List Nat))
    (options : ExecuteOptions) (numOutputsQuery : Except PjrtError Nat) :
    Except PjrtError ExecuteArgs :=
  let using_host_callbacks :=
    !options.send_callbacks.isEmpty || !options.recv_callbacks.isEmpty
  if using_host_callbacks &&
      !options.use_major_to_minor_data_layout_for_callbacks then
    .error layoutUnimplementedError
  else if argument_handles.length = 0 then
    .error checkFailedError
  else
    match numOutputsQuery with
    | .error e => .error e
    | .ok numOutputs =>
        .ok { num_devices := argument_handles.length,
              num_args := (argument_handles.headD []).length,
              output_lists_storage :=
                List.replicate argument_handles.length
                  (List.replicate numOutputs 0) }

/-- `PjRtCApiLoadedExecutable::Execute` (the multi-device path): assembles
the common arguments, then lets the plugin write one output buffer into
every slot of the caller-provided storage (`pluginOut i j` is the buffer the
plugin stores for device `i`, output `j`), and converts back exactly
`num_devices` lists of `storage[0].size` buffers each. -/
def Execute (argument_handles : List (List Nat)) (options : ExecuteOptions)
    (numOutputsQuery : Except PjrtError Nat)
    (pluginOut : Nat → Nat → PjRtCApiBuffer) :
    Except PjrtError (List (List PjRtCApiBuffer)) :=
  match GetCommonExecuteArgs argument_handles options numOutputsQuery with
  | .error e => .error e
  | .ok args =>
      .ok ((List.range args.num_devices).map fun i =>
            (List.range (args.output_lists_storage.headD []).length).map fun j =>
              pluginOut i j)

/-- The `Unimplemented` error from
`PjRtCApiLoadedExecutable::ExecuteWithSingleDevice` when send/recv callbacks
are supplied. -/
def sendRecvUnimplementedError : PjrtError :=
  ⟨.unimplemented,
   "Send/recv callbacks not implemented for PjRtCApiLoadedExecutable::ExecuteWithSingleDevice."⟩

/-- `PjRtCApiLoadedExecutable::ExecuteWithSingleDevice`: rejects any
send/recv callbacks up front, otherwise wraps the single argument list and
runs the shared execute path, returning the one device's outputs. -/
def ExecuteWithSingleDevice (argument_handles : List Nat)
    (options : ExecuteOptions) (numOutputsQuery : Except PjrtError Nat)
    (pluginOut : Nat → Nat → PjRtCApiBuffer) :
    Except PjrtError (List PjRtCApiBuffer) :=
  if !options.send_callbacks.isEmpty || !options.recv_callbacks.isEmpty then
    .error sendRecvUnimplementedError
  else
    match Execute [argument_handles] options numOutputsQuery pluginOut with
    | .error e => .error e
    | .ok outs => .ok (outs.headD [])

/-- `PjRtCApiLoadedExecutable::ExecuteSharded` delegates to
`ExecuteWithSingleDevice`. -/
def ExecuteSharded (argument_handles : List Nat) (options : ExecuteOptions)
    (numOutputsQuery : Except PjrtError Nat)
    (pluginOut : Nat → Nat → PjRtCApiBuffer) :
    Except PjrtError (List PjRtCApiBuffer) :=
  ExecuteWithSingleDevice argument_handles options numOutputsQuery pluginOut

/-- `PjRtCApiLoadedExecutable::ExecutePortable` delegates to
`ExecuteWithSingleDevice`. -/
def ExecutePortable (argument_handles : List Nat) (options : ExecuteOptions)
    (numOutputsQuery : Except PjrtError Nat)
    (pluginOut : Nat → Nat → PjRtCApiBuffer) :
    Except PjrtError (List PjRtCApiBuffer) :=
  ExecuteWithSingleDevice argument_handles options numOutputsQuery pluginOut

/-! ### InitDevicesAndMemorySpaces (claim C6) -/

/-- An opaque `PJRT_Memory` handle. -/
structure MemHandle where
  id : Nat
deriving DecidableEq, Repr

/-- An opaque `PJRT_Device` handle. -/
structure DevHandle where
  id : Nat
deriving DecidableEq, Repr

/-- Outcome of an initialization step: a value, or process termination via
`LogFatalIfPjrtError`. -/
inductive InitStep (α : Type)
  | ok (value : α)
  | fatal (e : PjrtError)
deriving DecidableEq, Repr

/-- Step 3 of `PjRtCApiClient::InitDevicesAndMemorySpaces`:
`PJRT_Client_AddressableMemories` (`memEnum` is its outcome).  An
`UNIMPLEMENTED` error leaves the memory-space set empty without failing; any
other error is fatal. -/
def initMemorySpaces (memEnum : Except PjrtError (List MemHandle)) :
    InitStep (List MemHandle) :=
  match memEnum with
  | .ok ms => .ok ms
  | .error e => if e.code = .unimplemented then .ok [] else .fatal e

/-- Step 4 of `PjRtCApiClient::InitDevicesAndMemorySpaces`: for each
addressable device in order, query `PJRT_Device_AddressableMemories`
(`query`).  A non-`UNIMPLEMENTED` error is fatal; any error breaks out of
the loop, keeping the edges populated so far. -/
def attachDeviceMemories (query : DevHandle → Except PjrtError (List MemHandle)) :
    List DevHandle → InitStep (List (DevHandle × List MemHandle))
  | [] => .ok []
  | d :: rest =>
      match query d with
      | .error e =>
          if e.code ≠ .unimplemented then .fatal e else .ok []
      | .ok ms =>
          match attachDeviceMemories query rest with
          | .ok tail => .ok ((d, ms) :: tail)
          | .fatal e => .fatal e

/-! ### GetCApiClient key-value callback validation (claim C8) -/

/-- The `InvalidArgument` error from `GetCApiClient` when exactly one of the
key-value callbacks is supplied. -/
def kvOnlyOneError (device_type : String) : PjrtError :=
  ⟨.invalidArgument,
   "Only one of KeyValueGetCallback and KeyValuePutCallback is set in GetCApiClient for " ++ device_type⟩

/-- The C callback data built from a complete get/put pair
(`pjrt::PJRT_KeyValueCallbackData`); the callbacks themselves are opaque. -/
structure KVCallbackData where
  kv_get : Nat
  kv_put : Nat
deriving DecidableEq, Repr

/-- A concrete device-to-memory query used to exercise the initialization
pass: device 0 has one attached memory, every other device reports
`UNIMPLEMENTED`. -/
def exampleDeviceMemQuery : DevHandle → Except PjrtError (List MemHandle) :=
  fun d => if d.id = 0 then .ok [⟨5⟩] else .error ⟨.unimplemented, "unimplemented"⟩

/-- The key-value-callback portion of `xla::GetCApiClient`: neither callback
means no callback data, both means a converted pair, exactly one is an
`InvalidArgument` error raised before `PJRT_Client_Create` is called.
`clientCreate` is what the plugin's create call would return given the
callback data; the Boolean records whether that call was made. -/
def GetCApiClient (device_type : String) (kv_get kv_put : Option Nat)
    (clientCreate : Option KVCallbackData → Except PjrtError Nat) :
    Except PjrtError Nat × Bool :=
  match kv_get, kv_put with
  | none, none => (clientCreate none, true)
  | some g, some p => (clientCreate (some ⟨g, p⟩), true)
  | _, _ => (.error (kvOnlyOneError device_type), false)

/-! ## Theorems -/

/-- Claim C3: a `BufferFromHostBuffer` call with a `HostBufferSemantics`
value other than the three supported ones returns an `Unimplemented` error
before any plugin call is made, so no buffer is created. -/
theorem bufferFromHostBuffer_unsupported_semantics (sem : HostBufferSemantics)
    (dstClient : PjRtCApiClient) (data : List Nat)
    (h1 : sem ≠ .kImmutableOnlyDuringCall) (h2 : sem ≠ .kZeroCopy)
    (h3 : sem ≠ .kImmutableUntilTransferCompletes) :
    BufferFromHostBufferInternalImpl sem dstClient data =
      (.error unimplementedSemanticsError, false) := by
  simp [BufferFromHostBufferInternalImpl, h1, h2, h3]

/-- Witness for claim C3 at the concrete unsupported semantics value. -/
theorem bufferFromHostBuffer_unsupported_semantics_witness :
    BufferFromHostBufferInternalImpl .kOtherSemantics ⟨0, "cpu"⟩ [1, 2] =
      (.error unimplementedSemanticsError, false) :=
  bufferFromHostBuffer_unsupported_semantics .kOtherSemantics ⟨0, "cpu"⟩ [1, 2]
    (by decide) (by decide) (by decide)

/-- Claim C4: `UnsafeBufferPointer` on a buffer owned by a different client
returns an `Invalid-argument` error whose message names both the buffer's
client platform and the calling client's platform, with no plugin call made;
on a matching client it returns the plugin's buffer pointer. -/
theorem unsafeBufferPointer_cross_client (self : PjRtCApiClient)
    (buffer : PjRtCApiBuffer) (pluginPointer : Except PjrtError Nat) :
    (buffer.client ≠ self →
      UnsafeBufferPointer self buffer pluginPointer =
        (.error ⟨.invalidArgument,
          unsafeBufferPointerMessage buffer.client.platform_name
            self.platform_name⟩, false)
      ∧ ∃ s1 s2 s3,
          unsafeBufferPointerMessage buffer.client.platform_name
              self.platform_name =
            s1 ++ buffer.client.platform_name ++ s2 ++ self.platform_name ++ s3)
    ∧ (buffer.client = self →
        UnsafeBufferPointer self buffer pluginPointer = (pluginPointer, true)) := by
  constructor
  · intro h
    refine ⟨by simp [UnsafeBufferPointer, h], ?_⟩
    exact ⟨"buffer passed to PjRtCApiClient::UnsafeBufferPointer() is from a different client than that of the function call. Buffer client platform: ",
           ", function call client platform: ", ".", rfl⟩
  · intro h
    simp [UnsafeBufferPointer, h]

/-- Witness for claim C4: a cross-client call at concrete clients. -/
theorem unsafeBufferPointer_cross_client_witness :
    UnsafeBufferPointer ⟨0, "cpu"⟩ ⟨⟨1, "tpu"⟩, []⟩ (.ok 5) =
      (.error ⟨.invalidArgument, unsafeBufferPointerMessage "tpu" "cpu"⟩,
       false) :=
  ((unsafeBufferPointer_cross_client ⟨0, "cpu"⟩ ⟨⟨1, "tpu"⟩, []⟩ (.ok 5)).1
    (by decide)).1

/-- Claim C10: `CreateViewOfDeviceBuffer` against a plugin with API minor
version below 33 returns `Unimplemented` and never invokes the plugin's
view-creation entry point. -/
theorem createViewOfDeviceBuffer_version_gate (minorVersion : Nat)
    (client : PjRtCApiClient) (pluginView : Except PjrtError (List Nat))
    (h : minorVersion < 33) :
    CreateViewOfDeviceBuffer minorVersion client pluginView =
      (.error createViewUnimplementedError, false) := by
  simp [CreateViewOfDeviceBuffer, h]

/-- Witness for claim C10 at minor version 32. -/
theorem createViewOfDeviceBuffer_version_gate_witness :
    CreateViewOfDeviceBuffer 32 ⟨0, "cpu"⟩ (.ok [1, 2]) =
      (.error createViewUnimplementedError, false) :=
  createViewOfDeviceBuffer_version_gate 32 ⟨0, "cpu"⟩ (.ok [1, 2]) (by decide)

/-- Claim C8: supplying exactly one of the key-value get/put callbacks makes
client creation fail with an `Invalid-argument` error before the plugin
client is created; supplying both or neither proceeds to the plugin create
call. -/
theorem getCApiClient_kv_pair_validation (device_type : String)
    (kv_get kv_put : Option Nat)
    (clientCreate : Option KVCallbackData → Except PjrtError Nat) :
    (kv_get.isSome ≠ kv_put.isSome →
      GetCApiClient device_type kv_get kv_put clientCreate =
        (.error (kvOnlyOneError device_type), false))
    ∧ (kv_get.isSome = kv_put.isSome →
        (GetCApiClient device_type kv_get kv_put clientCreate).2 = true) := by
  constructor <;> intro h <;> cases kv_get <;> cases kv_put <;>
    simp_all [GetCApiClient]

/-- Witness for claim C8: only the get callback supplied. -/
theorem getCApiClient_kv_pair_validation_witness :
    GetCApiClient "cpu" (some 1) none (fun _ => .ok 0) =
      (.error (kvOnlyOneError "cpu"), false) :=
  (getCApiClient_kv_pair_validation "cpu" (some 1) none (fun _ => .ok 0)).1
    (by decide)

/-- Counterexample to claim C1 as stated: a same-client `CopyToMemorySpace`
on a plugin with API minor version 31 is not performed as a direct
device-to-device plugin copy — it returns `Unimplemented` instead. -/
theorem copyToMemorySpace_version_counterexample :
    CopyToMemorySpace 31 ⟨⟨0, "cpu"⟩, [1, 2]⟩ ⟨⟨0, "cpu"⟩⟩ ≠
      .ok (.directDeviceCopy
        (pluginCopyToMemory ⟨⟨0, "cpu"⟩, [1, 2]⟩ ⟨⟨0, "cpu"⟩⟩)) := by
  decide

/-- Claim C1 (amended): `CopyToDevice` dispatches on client equality —
same-client copies go through the direct plugin copy, cross-client copies go
through a synchronous host materialization re-ingested on the destination
client with zero-copy semantics and a literal-freeing completion callback,
yielding a buffer owned by the destination client whose contents equal the
source's host materialization; `CopyToMemorySpace` behaves the same provided
the plugin's API minor version is at least 32, and below 32 it returns the
`Unimplemented` error without performing any copy. -/
theorem copy_dispatch_amended (src : PjRtCApiBuffer) (dstD : PjRtDevice)
    (dstM : PjRtMemorySpace) (minorVersion : Nat) :
    (dstD.client = src.client →
      CopyToDevice src dstD = .directDeviceCopy (pluginCopyToDevice src dstD))
    ∧ (dstD.client ≠ src.client →
        CopyToDevice src dstD =
          .hostRoundTrip ⟨dstD.client, (ToLiteralSync src).bytes, .kZeroCopy, true⟩
        ∧ copyCallResult (CopyToDevice src dstD) =
            .ok ⟨dstD.client, (ToLiteralSync src).bytes⟩)
    ∧ (minorVersion < 32 →
        CopyToMemorySpace minorVersion src dstM =
          .error copyToMemorySpaceUnimplementedError)
    ∧ (32 ≤ minorVersion → dstM.client = src.client →
        CopyToMemorySpace minorVersion src dstM =
          .ok (.directDeviceCopy (pluginCopyToMemory src dstM)))
    ∧ (32 ≤ minorVersion → dstM.client ≠ src.client →
        CopyToMemorySpace minorVersion src dstM =
          .ok (.hostRoundTrip
            ⟨dstM.client, (ToLiteralSync src).bytes, .kZeroCopy, true⟩)
        ∧ copyCallResult
            (.hostRoundTrip
              ⟨dstM.client, (ToLiteralSync src).bytes, .kZeroCopy, true⟩) =
            .ok ⟨dstM.client, (ToLiteralSync src).bytes⟩) := by
  refine ⟨?_, ?_, ?_, ?_, ?_⟩
  · intro h
    simp [CopyToDevice, h]
  · intro h
    refine ⟨by simp [CopyToDevice, h], ?_⟩
    simp [CopyToDevice, h, copyCallResult, BufferFromHostBufferInternalImpl]
  · intro h
    simp [CopyToMemorySpace, h]
  · intro hv h
    have hv32 : ¬ minorVersion < 32 := by omega
    simp [CopyToMemorySpace, h, hv32]
  · intro hv h
    have hv32 : ¬ minorVersion < 32 := by omega
    refine ⟨by simp [CopyToMemorySpace, h, hv32], ?_⟩
    simp [copyCallResult, BufferFromHostBufferInternalImpl]

/-- Witness for claim C1's amended theorem: a concrete cross-client
`CopyToDevice`, and a concrete `CopyToMemorySpace` at minor version 31
returning the `Unimplemented` error. -/
theorem copy_dispatch_amended_witness :
    (CopyToDevice ⟨⟨0, "cpu"⟩, [1, 2]⟩ ⟨⟨1, "tpu"⟩⟩ =
      .hostRoundTrip ⟨⟨1, "tpu"⟩, [1, 2], .kZeroCopy, true⟩
    ∧ copyCallResult (CopyToDevice ⟨⟨0, "cpu"⟩, [1, 2]⟩ ⟨⟨1, "tpu"⟩⟩) =
        .ok ⟨⟨1, "tpu"⟩, [1, 2]⟩)
    ∧ CopyToMemorySpace 31 ⟨⟨0, "cpu"⟩, [1, 2]⟩ ⟨⟨1, "tpu"⟩⟩ =
        .error copyToMemorySpaceUnimplementedError :=
  ⟨(copy_dispatch_amended ⟨⟨0, "cpu"⟩, [1, 2]⟩ ⟨⟨1, "tpu"⟩⟩ ⟨⟨1, "tpu"⟩⟩
      31).2.1 (by decide),
   (copy_dispatch_amended ⟨⟨0, "cpu"⟩, [1, 2]⟩ ⟨⟨1, "tpu"⟩⟩ ⟨⟨1, "tpu"⟩⟩
      31).2.2.1 (by decide)⟩

/-- Once the promise is cached, `GetReadyFuture` is a no-op on the state and
keeps returning a future over the same promise. -/
theorem getReadyFutureN_cached (e : Option PjrtError) (n : Nat) (p : Promise)
    (c r : Nat) :
    getReadyFutureN e n ⟨some p, c, r⟩ =
      (⟨some p, c, r⟩, List.replicate n ⟨p⟩) := by
  induction n with
  | zero => simp [getReadyFutureN]
  | succ n ih => simp [getReadyFutureN, GetReadyFuture, ih, List.replicate]

/-- Claim C2: the first `GetReadyFuture` call creates a promise, registers
exactly one completion callback on the ready event, and caches it; all `n`
calls return futures backed by that same promise, and once the event fires
the promise has been resolved exactly once (also on the path where callback
registration itself fails). -/
theorem getReadyFuture_idempotent (e : Option PjrtError) (n : Nat)
    (hn : 0 < n) :
    (getReadyFutureN e n initialReadyState).2 =
      List.replicate n (⟨⟨0⟩⟩ : PjRtFuture)
    ∧ (fireReadyEvent (getReadyFutureN e n initialReadyState).1).promiseSets = 1
    ∧ (e = none →
        (getReadyFutureN e n initialReadyState).1.eventCallbacks = 1) := by
  obtain ⟨m, rfl⟩ : ∃ m, n = m + 1 := ⟨n - 1, by omega⟩
  cases e with
  | none =>
      simp [getReadyFutureN, GetReadyFuture, initialReadyState,
            MakePromiseTrackEvent, getReadyFutureN_cached, fireReadyEvent,
            List.replicate]
  | some err =>
      simp [getReadyFutureN, GetReadyFuture, initialReadyState,
            MakePromiseTrackEvent, getReadyFutureN_cached, fireReadyEvent,
            List.replicate]

/-- Witness for claim C2 at three calls on the normal registration path. -/
theorem getReadyFuture_idempotent_witness :
    (getReadyFutureN none 3 initialReadyState).2 =
      List.replicate 3 (⟨⟨0⟩⟩ : PjRtFuture)
    ∧ (fireReadyEvent (getReadyFutureN none 3 initialReadyState).1).promiseSets = 1
    ∧ ((none : Option PjrtError) = none →
        (getReadyFutureN none 3 initialReadyState).1.eventCallbacks = 1) :=
  getReadyFuture_idempotent none 3 (by decide)

/-- Counterexample to claim C5 as stated: with
`use_major_to_minor_data_layout_for_callbacks = false` but no send or recv
callbacks supplied, `GetCommonExecuteArgs` succeeds instead of returning the
`Unimplemented` layout error. -/
theorem executeLayout_counterexample :
    GetCommonExecuteArgs [[0]] ⟨0, [], [], false⟩ (.ok 1) =
      .ok ⟨1, 1, [[0]]⟩ := by
  decide

/-- Claim C5 (amended): the execute path returns the `Unimplemented` layout
error exactly when some send or recv callback list is non-empty and
`use_major_to_minor_data_layout_for_callbacks` is false. -/
theorem executeLayout_amended (argument_handles : List (List Nat))
    (options : ExecuteOptions) (numOutputs : Nat) :
    GetCommonExecuteArgs argument_handles options (.ok numOutputs) =
        .error layoutUnimplementedError ↔
      (options.send_callbacks ≠ [] ∨ options.recv_callbacks ≠ []) ∧
        options.use_major_to_minor_data_layout_for_callbacks = false := by
  rcases options with ⟨lid, send, recv, flag⟩
  cases flag <;> cases send <;> cases recv <;> cases argument_handles <;>
    simp [GetCommonExecuteArgs, checkFailedError, layoutUnimplementedError]

/-- Witness for claim C5's amended theorem: a send callback plus a
non-host-major layout request yields the layout error. -/
theorem executeLayout_amended_witness :
    GetCommonExecuteArgs [[0]] ⟨0, [[7]], [], false⟩ (.ok 1) =
      .error layoutUnimplementedError :=
  (executeLayout_amended [[0]] ⟨0, [[7]], [], false⟩ 1).2 (by decide)

/-- When every device's attached-memory query succeeds, the edge-population
pass succeeds. -/
theorem attachDeviceMemories_all_ok
    (query : DevHandle → Except PjrtError (List MemHandle))
    (ds : List DevHandle) (h : ∀ d ∈ ds, ∃ ms, query d = .ok ms) :
    ∃ edges, attachDeviceMemories query ds = .ok edges := by
  induction ds with
  | nil => exact ⟨[], rfl⟩
  | cons d rest ih =>
      obtain ⟨ms, hms⟩ := h d (List.mem_cons_self d rest)
      obtain ⟨tail, htail⟩ := ih fun d' hd' => h d' (List.mem_cons_of_mem _ hd')
      exact ⟨(d, ms) :: tail, by simp [attachDeviceMemories, hms, htail]⟩

/-- An `UNIMPLEMENTED` attached-memory query stops the edge-population pass
early: the devices after it (and the failing one) are simply skipped. -/
theorem attachDeviceMemories_stops_early
    (query : DevHandle → Except PjrtError (List MemHandle))
    (ds1 ds2 : List DevHandle) (d : DevHandle) (e : PjrtError)
    (h1 : ∀ d' ∈ ds1, ∃ ms, query d' = .ok ms)
    (h2 : query d = .error e) (h3 : e.code = .unimplemented) :
    attachDeviceMemories query (ds1 ++ d :: ds2) =
      attachDeviceMemories query ds1 := by
  induction ds1 with
  | nil => simp [attachDeviceMemories, h2, h3]
  | cons d0 rest ih =>
      obtain ⟨ms, hms⟩ := h1 d0 (List.mem_cons_self d0 rest)
      have ih2 := ih fun d' hd' => h1 d' (List.mem_cons_of_mem _ hd')
      simp [attachDeviceMemories, hms, ih2]

/-- Claim C6: an `UNIMPLEMENTED` addressable-memory enumeration leaves the
client with an empty memory-space set without raising an error, and the
device-to-memory edge-population pass stops early, without failing, the
first time a device's attached-memory query reports `UNIMPLEMENTED`. -/
theorem initGraph_unimplemented_soft (memErr : PjrtError)
    (query : DevHandle → Except PjrtError (List MemHandle))
    (ds1 ds2 : List DevHandle) (d : DevHandle) (devErr : PjrtError)
    (hm : memErr.code = .unimplemented)
    (h1 : ∀ d' ∈ ds1, ∃ ms, query d' = .ok ms)
    (h2 : query d = .error devErr) (h3 : devErr.code = .unimplemented) :
    initMemorySpaces (.error memErr) = .ok []
    ∧ ∃ edges, attachDeviceMemories query (ds1 ++ d :: ds2) = .ok edges
        ∧ attachDeviceMemories query ds1 = .ok edges := by
  refine ⟨by simp [initMemorySpaces, hm], ?_⟩
  obtain ⟨edges, hedges⟩ := attachDeviceMemories_all_ok query ds1 h1
  exact ⟨edges,
    by rw [attachDeviceMemories_stops_early query ds1 ds2 d devErr h1 h2 h3,
           hedges],
    hedges⟩

/-- Witness for claim C6: three devices, of which the second reports
`UNIMPLEMENTED`; only the first device's edges are populated. -/
theorem initGraph_unimplemented_soft_witness :
    initMemorySpaces (.error ⟨.unimplemented, "no memories"⟩) = .ok []
    ∧ ∃ edges,
        attachDeviceMemories exampleDeviceMemQuery ([⟨0⟩] ++ ⟨1⟩ :: [⟨2⟩]) =
          .ok edges
        ∧ attachDeviceMemories exampleDeviceMemQuery [⟨0⟩] = .ok edges :=
  initGraph_unimplemented_soft ⟨.unimplemented, "no memories"⟩
    exampleDeviceMemQuery [⟨0⟩] [⟨2⟩] ⟨1⟩ ⟨.unimplemented, "unimplemented"⟩
    rfl
    (by
      intro d' hd'
      simp only [List.mem_singleton] at hd'
      subst hd'
      exact ⟨[⟨5⟩], rfl⟩)
    rfl rfl

/-- Claim C7: for a multi-device execute over `D` devices, the output
storage handed to the plugin is pre-sized to `D` lists of `K` slots, `K`
being the executable's declared number of outputs, and a successful `Execute`
returns exactly `D` per-device lists of exactly `K` buffers each. -/
theorem execute_output_arity (argument_handles : List (List Nat))
    (options : ExecuteOptions) (numOutputs : Nat)
    (pluginOut : Nat → Nat → PjRtCApiBuffer)
    (hne : argument_handles ≠ [])
    (hlayout : options.use_major_to_minor_data_layout_for_callbacks = true ∨
      (options.send_callbacks = [] ∧ options.recv_callbacks = [])) :
    GetCommonExecuteArgs argument_handles options (.ok numOutputs) =
      .ok ⟨argument_handles.length, (argument_handles.headD []).length,
           List.replicate argument_handles.length
             (List.replicate numOutputs 0)⟩
    ∧ ∃ outs,
        Execute argument_handles options (.ok numOutputs) pluginOut = .ok outs
        ∧ outs.length = argument_handles.length
        ∧ ∀ l ∈ outs, l.length = numOutputs := by
  have hcond : ((!options.send_callbacks.isEmpty ||
      !options.recv_callbacks.isEmpty) &&
      !options.use_major_to_minor_data_layout_for_callbacks) = false := by
    rcases hlayout with h | ⟨hs, hr⟩
    · simp [h]
    · simp [hs, hr]
  have hlen : ¬ argument_handles.length = 0 := by
    simpa [List.length_eq_zero] using hne
  have hargs : GetCommonExecuteArgs argument_handles options (.ok numOutputs) =
      .ok ⟨argument_handles.length, (argument_handles.headD []).length,
           List.replicate argument_handles.length
             (List.replicate numOutputs 0)⟩ := by
    simp [GetCommonExecuteArgs, hcond, hlen]
  have hhead : ((List.replicate argument_handles.length
      (List.replicate numOutputs 0)).head?.getD []) =
      List.replicate numOutputs 0 := by
    cases argument_handles with
    | nil => exact absurd rfl hne
    | cons a as => simp [List.replicate]
  refine ⟨hargs, ?_⟩
  refine ⟨(List.range argument_handles.length).map fun i =>
      (List.range numOutputs).map fun j => pluginOut i j, ?_, ?_, ?_⟩
  · simp [Execute, hargs, hhead]
  · simp
  · intro l hl
    simp only [List.mem_map] at hl
    obtain ⟨i, _, rfl⟩ := hl
    simp

/-- Witness for claim C7: two devices, three declared outputs. -/
theorem execute_output_arity_witness :
    GetCommonExecuteArgs [[1], [2]] ⟨0, [], [], true⟩ (.ok 3) =
      .ok ⟨2, 1, List.replicate 2 (List.replicate 3 0)⟩
    ∧ ∃ outs,
        Execute [[1], [2]] ⟨0, [], [], true⟩ (.ok 3)
          (fun _ _ => ⟨⟨0, "cpu"⟩, []⟩) = .ok outs
        ∧ outs.length = 2 ∧ ∀ l ∈ outs, l.length = 3 :=
  execute_output_arity [[1], [2]] ⟨0, [], [], true⟩ 3
    (fun _ _ => ⟨⟨0, "cpu"⟩, []⟩) (by decide) (Or.inl rfl)

/-- The shared argument-assembly step can never produce the single-device
send/recv rejection error. -/
theorem getCommonExecuteArgs_ne_sendRecv (a : List (List Nat))
    (o : ExecuteOptions) (k : Nat) :
    GetCommonExecuteArgs a o (.ok k) ≠ .error sendRecvUnimplementedError := by
  rcases o with ⟨lid, send, recv, flag⟩
  cases flag <;> cases send <;> cases recv <;> cases a <;>
    simp [GetCommonExecuteArgs, layoutUnimplementedError, checkFailedError,
          sendRecvUnimplementedError]

/-- Claim C9: `ExecuteSharded` and `ExecutePortable` reject any non-empty
send or recv callback list with an `Unimplemented` error before any plugin
execute call (the result does not depend on the plugin oracles), while the
multi-device `Execute` path never raises that rejection — host callbacks are
marshalled only there. -/
theorem executeSingleDevice_rejects_callbacks (argument_handles : List Nat)
    (options : ExecuteOptions) (numOutputsQuery : Except PjrtError Nat)
    (pluginOut : Nat → Nat → PjRtCApiBuffer)
    (multiArgs : List (List Nat)) (numOutputs : Nat)
    (h : options.send_callbacks ≠ [] ∨ options.recv_callbacks ≠ []) :
    ExecuteSharded argument_handles options numOutputsQuery pluginOut =
      .error sendRecvUnimplementedError
    ∧ ExecutePortable argument_handles options numOutputsQuery pluginOut =
      .error sendRecvUnimplementedError
    ∧ Execute multiArgs options (.ok numOutputs) pluginOut ≠
      .error sendRecvUnimplementedError := by
  have hrej : ExecuteWithSingleDevice argument_handles options numOutputsQuery
      pluginOut = .error sendRecvUnimplementedError := by
    rcases h with h | h
    · cases hs : options.send_callbacks with
      | nil => exact absurd hs h
      | cons a as => simp [ExecuteWithSingleDevice, hs]
    · cases hr : options.recv_callbacks with
      | nil => exact absurd hr h
      | cons a as => simp [ExecuteWithSingleDevice, hr]
  refine ⟨hrej, hrej, ?_⟩
  intro hcontra
  unfold Execute at hcontra
  cases hg : GetCommonExecuteArgs multiArgs options (.ok numOutputs) with
  | error e =>
      rw [hg] at hcontra
      simp only [Except.error.injEq] at hcontra
      exact getCommonExecuteArgs_ne_sendRecv multiArgs options numOutputs
        (by rw [hg, hcontra])
  | ok args =>
      rw [hg] at hcontra
      simp at hcontra

/-- Witness for claim C9: one send callback supplied. -/
theorem executeSingleDevice_rejects_callbacks_witness :
    ExecuteSharded [0] ⟨0, [[7]], [], true⟩ (.ok 1)
      (fun _ _ => ⟨⟨0, "cpu"⟩, []⟩) = .error sendRecvUnimplementedError
    ∧ ExecutePortable [0] ⟨0, [[7]], [], true⟩ (.ok 1)
      (fun _ _ => ⟨⟨0, "cpu"⟩, []⟩) = .error sendRecvUnimplementedError
    ∧ Execute [[0]] ⟨0, [[7]], [], true⟩ (.ok 1)
      (fun _ _ => ⟨⟨0, "cpu"⟩, []⟩) ≠ .error sendRecvUnimplementedError :=
  executeSingleDevice_rejects_callbacks [0] ⟨0, [[7]], [], true⟩ (.ok 1)
    (fun _ _ => ⟨⟨0, "cpu"⟩, []⟩) [[0]] 1 (Or.inl (by decide))

end PjrtC
